import Mathlib

/-!
# Verification of the storage3 resumable-upload core

Shallow embedding of the resumable-upload engine of this repository:
`storage3/_async/resumable.py` (class `AsyncResumableUpload`) and
`storage3/utils.py` (class `FileStore`), together with theorems settling
the specification claims about them.

Modelling conventions:
* Python dictionaries (headers, the in-memory session storage, the file
  system) are insertion-ordered association lists over `String` keys.
* The HTTP transport is an oracle: each operation receives the responses
  the transport would produce, and (where a claim needs it) returns the
  list of requests it issued.
* Python exceptions are an explicit error type `Err`; every stateful
  `FileStore`/engine operation returns its final state paired with an
  `Except Err` outcome, since the store object survives a raised exception.
* Machine integers and sizes are `Nat`/`Int`; the `mb_size` argument of
  `upload` (a Python number, possibly fractional) is `ℚ`.
-/

namespace Storage3

/-! ## Python dictionaries as insertion-ordered association lists -/

/-- Lookup `d[key]`: first (and in practice only) binding of `key`. -/
def dget {α : Type} : List (String × α) → String → Option α
  | [], _ => none
  | (k, v) :: rest, key => if k = key then some v else dget rest key

/-- Assignment `d[key] = v`: replace in place if present (Python dicts keep the
insertion position of an updated key), else append. -/
def dset {α : Type} : List (String × α) → String → α → List (String × α)
  | [], key, v => [(key, v)]
  | (k, w) :: rest, key, v =>
    if k = key then (key, v) :: rest else (k, w) :: dset rest key v

/-- Deletion `del d[key]` (callers below only use it when the key is present). -/
def ddel {α : Type} : List (String × α) → String → List (String × α)
  | [], _ => []
  | (k, v) :: rest, key =>
    if k = key then ddel rest key else (k, v) :: ddel rest key

/-- Membership test `key in d`. -/
def dhas {α : Type} (m : List (String × α)) (key : String) : Bool :=
  (dget m key).isSome

abbrev Headers := List (String × String)

theorem dget_dset_self {α : Type} (m : List (String × α)) (key : String) (v : α) :
    dget (dset m key v) key = some v := by
  induction m with
  | nil => simp [dset, dget]
  | cons p rest ih =>
    obtain ⟨k, w⟩ := p
    by_cases h : k = key <;> simp [dset, dget, h, ih]

theorem dget_dset_ne {α : Type} (m : List (String × α)) (key key' : String)
    (v : α) (h : ¬ key' = key) : dget (dset m key v) key' = dget m key' := by
  have h' : ¬ key = key' := fun e => h e.symm
  induction m with
  | nil => simp [dset, dget, h']
  | cons p rest ih =>
    obtain ⟨k, w⟩ := p
    by_cases hk : k = key
    · have hk'' : ¬ k = key' := by rw [hk]; exact h'
      simp [dset, dget, hk, h', hk'']
    · by_cases hk' : k = key' <;> simp [dset, dget, hk, hk', ih, h]

theorem dget_ddel_self {α : Type} (m : List (String × α)) (key : String) :
    dget (ddel m key) key = none := by
  induction m with
  | nil => simp [ddel, dget]
  | cons p rest ih =>
    obtain ⟨k, v⟩ := p
    by_cases h : k = key <;> simp [ddel, dget, h, ih]

theorem dget_ddel_ne {α : Type} (m : List (String × α)) (key key' : String)
    (h : ¬ key' = key) : dget (ddel m key) key' = dget m key' := by
  induction m with
  | nil => simp [ddel, dget]
  | cons p rest ih =>
    obtain ⟨k, v⟩ := p
    have h' : ¬ key = key' := fun e => h e.symm
    by_cases hk : k = key
    · have hk'' : ¬ k = key' := by rw [hk]; exact h'
      simp [ddel, dget, hk, hk'', ih, h']
    · by_cases hk' : k = key' <;> simp [ddel, dget, hk, hk', ih, h]

/-! ## Python `str`/`int` on non-negative integers

`str(n)` and `int(s)` for the decimal strings the engine exchanges with
the wire protocol (sizes and offsets). `pyParseNat` models `int(s)` on
such canonical non-negative decimal strings; on anything else it returns
`none`, standing for the `ValueError` that `int` raises. -/

/-- Decimal digits of `n`, least significant first. -/
def natDigitsRev (n : Nat) : List Nat :=
  if h : n < 10 then [n] else n % 10 :: natDigitsRev (n / 10)
decreasing_by exact Nat.div_lt_self (by omega) (by omega)

def digitChar (d : Nat) : Char := Char.ofNat (48 + d)

/-- Model of `str(n)` for a non-negative integer. -/
def pyStrOfNat (n : Nat) : String :=
  String.mk ((natDigitsRev n).reverse.map digitChar)

def charDigit? (c : Char) : Option Nat :=
  if 48 ≤ c.toNat ∧ c.toNat ≤ 57 then some (c.toNat - 48) else none

def digitsOfChars : List Char → Option (List Nat)
  | [] => some []
  | c :: rest =>
    match charDigit? c, digitsOfChars rest with
    | some d, some ds => some (d :: ds)
    | _, _ => none

def digitsVal (l : List Nat) : Nat := l.foldl (fun a d => a * 10 + d) 0

/-- Model of `int(s)` on a non-negative decimal string; `none` models `ValueError`. -/
def pyParseNat (s : String) : Option Nat :=
  if s.toList = [] then none
  else
    match digitsOfChars s.toList with
    | none => none
    | some ds => some (digitsVal ds)

theorem natDigitsRev_ne_nil (n : Nat) : natDigitsRev n ≠ [] := by
  rw [natDigitsRev]
  split <;> simp

theorem natDigitsRev_lt (n : Nat) : ∀ d ∈ natDigitsRev n, d < 10 := by
  induction n using Nat.strong_induction_on with
  | _ n ih =>
    rw [natDigitsRev]
    split
    · next h => intro d hd; simp at hd; omega
    · next h =>
      intro d hd
      simp only [List.mem_cons] at hd
      rcases hd with hd | hd
      · omega
      · exact ih (n / 10) (Nat.div_lt_self (by omega) (by omega)) d hd

theorem digitsVal_append (l : List Nat) (d : Nat) :
    digitsVal (l ++ [d]) = 10 * digitsVal l + d := by
  simp [digitsVal, List.foldl_append, Nat.mul_comm]

theorem digitsVal_natDigitsRev (n : Nat) :
    digitsVal (natDigitsRev n).reverse = n := by
  induction n using Nat.strong_induction_on with
  | _ n ih =>
    rw [natDigitsRev]
    split
    · next h => simp [digitsVal]
    · next h =>
      simp only [List.reverse_cons, digitsVal_append,
        ih (n / 10) (Nat.div_lt_self (by omega) (by omega))]
      omega

theorem charDigit?_digitChar (d : Nat) (h : d < 10) :
    charDigit? (digitChar d) = some d := by
  interval_cases d <;> decide

theorem digitsOfChars_map (ds : List Nat) (h : ∀ d ∈ ds, d < 10) :
    digitsOfChars (ds.map digitChar) = some ds := by
  induction ds with
  | nil => rfl
  | cons d rest ih =>
    simp only [List.map_cons, digitsOfChars,
      charDigit?_digitChar d (h d (by simp)), ih (fun x hx => h x (by simp [hx]))]

theorem pyParseNat_pyStrOfNat (n : Nat) : pyParseNat (pyStrOfNat n) = some n := by
  have hne : ((natDigitsRev n).reverse.map digitChar) ≠ [] := by
    simp [natDigitsRev_ne_nil n]
  have hlt : ∀ d ∈ (natDigitsRev n).reverse, d < 10 := by
    intro d hd
    exact natDigitsRev_lt n d (List.mem_reverse.mp hd)
  have htl : (pyStrOfNat n).toList = (natDigitsRev n).reverse.map digitChar := rfl
  rw [pyParseNat, htl, if_neg hne, digitsOfChars_map _ hlt]
  simp [digitsVal_natDigitsRev]

theorem pyStrOfNat_ne_empty (n : Nat) : (pyStrOfNat n).length ≠ 0 := by
  have : (pyStrOfNat n).length = (natDigitsRev n).reverse.length := by
    simp [pyStrOfNat, String.length]
  rw [this]
  simp [natDigitsRev_ne_nil n]

/-! ## Base64 and UTF-8 (collaborators of the metadata codec)

`b64encode(bytes(v, "utf-8")).decode()` from the Python standard library,
modelled over byte lists (`List Nat`). -/

def base64Chars : List Char :=
  "ABCDEFGHIJKLMNOPQRSTUVWXYZabcdefghijklmnopqrstuvwxyz0123456789+/".toList

def base64Char (n : Nat) : Char := base64Chars.getD n '='

/-- Standard base64 of a byte list, with `=` padding. -/
def b64encode : List Nat → List Char
  | [] => []
  | [a] =>
    let n := a * 65536
    [base64Char (n / 262144 % 64), base64Char (n / 4096 % 64), '=', '=']
  | [a, b] =>
    let n := a * 65536 + b * 256
    [base64Char (n / 262144 % 64), base64Char (n / 4096 % 64),
      base64Char (n / 64 % 64), '=']
  | a :: b :: c :: rest =>
    let n := a * 65536 + b * 256 + c
    base64Char (n / 262144 % 64) :: base64Char (n / 4096 % 64) ::
      base64Char (n / 64 % 64) :: base64Char (n % 64) :: b64encode rest

/-- UTF-8 encoding of one code point. -/
def utf8EncodeChar (c : Char) : List Nat :=
  let n := c.toNat
  if n < 128 then [n]
  else if n < 2048 then [192 + n / 64, 128 + n % 64]
  else if n < 65536 then [224 + n / 4096, 128 + n / 64 % 64, 128 + n % 64]
  else [240 + n / 262144, 128 + n / 4096 % 64, 128 + n / 64 % 64, 128 + n % 64]

def utf8Bytes (s : String) : List Nat :=
  (s.toList.map utf8EncodeChar).flatten

/-- Model of `b64encode(bytes(v, "utf-8")).decode()`. -/
def b64encodeStr (s : String) : String := String.mk (b64encode (utf8Bytes s))

/-- Sanity check of the base64 model on a concrete value. -/
theorem b64encodeStr_sample : b64encodeStr "bucket" = "YnVja2V0" := by decide

/-! ## Metadata Codec: `AsyncResumableUpload._encode`

Source (`storage3/_async/resumable.py`):
```
res = [f"{k} {b64encode(bytes(v, 'utf-8')).decode()}" for k, v in metadata.items()]
return ",".join(res)
```
The metadata mapping is an insertion-ordered list of key/value pairs. -/

/-- Python `sep.join(parts)`. -/
def pyJoin (sep : String) : List String → String
  | [] => ""
  | [x] => x
  | x :: y :: rest => x ++ sep ++ pyJoin sep (y :: rest)

/-- Codec `AsyncResumableUpload._encode`, translated from the source. -/
def _encode (metadata : List (String × String)) : String :=
  pyJoin "," (metadata.map (fun kv => kv.1 ++ " " ++ b64encodeStr kv.2))

/-- The encoding rule in the words of the spec (§4.2): for each key in
insertion order emit `"<key> <base64(utf8(value))>"`, join entries with
`","`. Stated as its own recursion, to be compared with `_encode`. -/
def encodeSpec : List (String × String) → String
  | [] => ""
  | [(k, v)] => k ++ " " ++ b64encodeStr v
  | (k, v) :: kv :: rest => k ++ " " ++ b64encodeStr v ++ "," ++ encodeSpec (kv :: rest)

/-! ## Data model

`FileInfo` mirrors the record of `storage3/types.py` as used by the code
and described in §3 of the spec (the repository's `types.py` itself is a
bare field declaration): name, link, length (wire string, `""` = deferred),
headers, expiration time (seconds since epoch, absent until creation
succeeds), fingerprint and mtime (absent until `mark_file` sets them). -/

structure FileInfo where
  name : String
  link : String
  length : String
  headers : Headers
  expiration_time : Option Int
  fingerprint : Option String
  mtime : Option Int
deriving Repr, DecidableEq

/-- The on-disk journal backing the `FileStore`: the temp file may have
been deleted externally (`missing`), be empty (size 0, as right after
`FileStore.__init__`), or hold the JSON serialization of a session
mapping (what `persist` writes — note `persist` of an empty mapping
writes the two-byte text `{}`, i.e. `content []`, not `empty`). -/
inductive Journal where
  | missing
  | empty
  | content (m : List (String × FileInfo))
deriving Repr, DecidableEq

structure FileStore where
  storage : List (String × FileInfo)
  journal : Journal
deriving Repr, DecidableEq

/-- Python exceptions surfaced by the embedded code. `storageExc` is the
repository's `StorageException` with its message (for transport failures,
the raw response body); the others are the builtin exceptions the code
can let escape. `transportExhausted` is a modelling device only: the
transfer loop is driven by a finite script of transport responses, and
running off its end stops the (otherwise unbounded) loop. -/
inductive Err where
  | storageExc (msg : String)
  | keyError (key : String)
  | osError (path : String)
  | valueError (s : String)
  | transportExhausted
deriving Repr, DecidableEq

/-- The local file system seen through `os.stat`/`open`: content bytes and
modification time per path. -/
structure FileData where
  content : List Nat
  mtime : Int
deriving Repr, DecidableEq

abbrev FileSystem := List (String × FileData)

/-- An HTTP response from the transport oracle. -/
structure Response where
  status_code : Nat
  headers : Headers
  content : String
deriving Repr, DecidableEq

/-- A request issued to the transport (recorded so that theorems can state
that no transport call was made before a validation failure). -/
inductive Request where
  | post (url : String) (headers : Headers)
  | patchReq (url : String) (headers : Headers)
  | deleteReq (url : String) (headers : Headers)
deriving Repr, DecidableEq

/-! ## Session Store: `FileStore` (`storage3/utils.py`)

Each stateful method returns the final store state paired with an
`Except Err` outcome (the Python object survives a raised exception). -/

/-- Method `reload_storage`: reset the in-memory mapping, `os.stat` the journal
(raises `FileNotFoundError` if the temp file is gone), and parse it when
non-empty. -/
def FileStore.reload_storage (fs : FileStore) : FileStore × Except Err Unit :=
  match fs.journal with
  | .missing => ({ fs with storage := [] }, .error (.osError "journal"))
  | .empty => ({ fs with storage := [] }, .ok ())
  | .content m => ({ fs with storage := m }, .ok ())

/-- Method `persist`: rewrite the journal with the serialized in-memory mapping
(always succeeds; `open(..., "w")` re-creates a missing file). -/
def FileStore.persist (fs : FileStore) : FileStore :=
  { fs with journal := .content fs.storage }

/-- Method `fingerprint`: md5 over the first `min(65536, int(length))` bytes of
the file at `info.name`. The hash itself is the standard library's `md5`,
an external collaborator passed in as `md5hex`. -/
def FileStore.fingerprintOf (md5hex : List Nat → String) (fsys : FileSystem)
    (info : FileInfo) : Except Err FileInfo :=
  match pyParseNat info.length with
  | none => .error (.valueError info.length)
  | some len =>
    let min_size := min 65536 len
    match dget fsys info.name with
    | none => .error (.osError info.name)
    | some fd => .ok { info with fingerprint := some (md5hex (fd.content.take min_size)) }

/-- Method `mark_file`: fingerprint + mtime when `length` is non-empty, then
insert/replace under `info.name` and persist. -/
def FileStore.mark_file (md5hex : List Nat → String) (fsys : FileSystem)
    (fs : FileStore) (info : FileInfo) : FileStore × Except Err Unit :=
  if info.length.length ≠ 0 then
    match FileStore.fingerprintOf md5hex fsys info with
    | .error e => (fs, .error e)
    | .ok info1 =>
      match dget fsys info1.name with
      | none => (fs, .error (.osError info1.name))
      | some fd =>
        let info2 := { info1 with mtime := some fd.mtime }
        FileStore.persist { fs with storage := dset fs.storage info2.name info2 } |>
          fun fs' => (fs', .ok ())
  else
    (FileStore.persist { fs with storage := dset fs.storage info.name info }, .ok ())

/-- Method `get_file_info`: reload, then `self.storage[filename]` (`KeyError` when
absent). -/
def FileStore.get_file_info (fs : FileStore) (filename : String) :
    FileStore × Except Err FileInfo :=
  match fs.reload_storage with
  | (fs1, .error e) => (fs1, .error e)
  | (fs1, .ok _) =>
    match dget fs1.storage filename with
    | none => (fs1, .error (.keyError filename))
    | some info => (fs1, .ok info)

/-- Method `remove_file`: `del self.storage[filename]` then persist. -/
def FileStore.remove_file (fs : FileStore) (filename : String) :
    FileStore × Except Err Unit :=
  match dget fs.storage filename with
  | none => (fs, .error (.keyError filename))
  | some _ => (FileStore.persist { fs with storage := ddel fs.storage filename }, .ok ())

/-- Method `update_file_headers`: reload + lookup; raise (and evict the session)
when `expiration_time < now`, else set the header and persist. `now` is
`datetime.now().timestamp()`. -/
def FileStore.update_file_headers (now : Int) (fs : FileStore)
    (filename key value : String) : FileStore × Except Err Unit :=
  match fs.get_file_info filename with
  | (fs1, .error e) => (fs1, .error e)
  | (fs1, .ok file) =>
    match file.expiration_time with
    | none => (fs1, .error (.keyError "expiration_time"))
    | some exp =>
      if exp < now then
        match fs1.remove_file filename with
        | (fs2, .error e) => (fs2, .error e)
        | (fs2, .ok _) => (fs2, .error (.storageExc "Upload link is expired"))
      else
        let file1 := { file with headers := dset file.headers key value }
        (FileStore.persist { fs1 with storage := dset fs1.storage filename file1 },
          .ok ())

/-- Method `delete_file_headers`: reload + lookup; remove the header if present
and persist, no-op otherwise. -/
def FileStore.delete_file_headers (fs : FileStore) (filename key : String) :
    FileStore × Except Err Unit :=
  match fs.get_file_info filename with
  | (fs1, .error e) => (fs1, .error e)
  | (fs1, .ok file) =>
    if dhas file.headers key then
      let file1 := { file with headers := ddel file.headers key }
      (FileStore.persist { fs1 with storage := dset fs1.storage filename file1 },
        .ok ())
    else (fs1, .ok ())

/-- Method `get_file_headers`. -/
def FileStore.get_file_headers (fs : FileStore) (filename : String) :
    FileStore × Except Err Headers :=
  match fs.get_file_info filename with
  | (fs1, .error e) => (fs1, .error e)
  | (fs1, .ok file) => (fs1, .ok file.headers)

/-- Method `get_link`: direct `self.storage[filename]["link"]`, no reload, pure. -/
def FileStore.get_link (fs : FileStore) (filename : String) : Except Err String :=
  match dget fs.storage filename with
  | none => .error (.keyError filename)
  | some info => .ok info.link

/-! ## Upload Engine: `AsyncResumableUpload` (`storage3/_async/resumable.py`)

The engine object carries its endpoint `url` and its `FileStore`. The
transport, the `md5` hash and `datetime.strptime` (the `upload-expires`
timestamp parser) are external collaborators passed in as oracles: each
call receives the responses the transport would return, and
`create_unique_link` also returns the list of requests it issued. -/

structure ResumableState where
  url : String
  filestore : FileStore
deriving Repr, DecidableEq

/-- Python `s.strip()`: drop whitespace from both ends. -/
def pyStrip (s : String) : String :=
  String.mk
    (((s.toList.dropWhile Char.isWhitespace).reverse.dropWhile
        Char.isWhitespace).reverse)

/-- Validator `_is_valid_arg(target)`: a string whose `strip()` is non-empty.
Optional arguments defaulting to `None` are `Option String`. -/
def _is_valid_arg : Option String → Bool
  | none => false
  | some s => (pyStrip s).length > 0

/-- Python truthiness of an optional string (`if filename:`):
`None` and `""` are falsy. -/
def pyTruthy : Option String → Bool
  | none => false
  | some s => s.length ≠ 0

/-- Basename `os.path.split(file)[1]`: the part of the path after the last `/`. -/
def ospathSplitTail (s : String) : String :=
  String.mk ((s.toList.reverse.takeWhile (fun c => c ≠ '/')).reverse)

/-- Expression `chunk_size = 1048576 * int(abs(mb_size))` from `upload` — `mb_size`
is a Python number, so `int(abs(mb_size))` truncates `|mb_size|`. -/
def chunk_size_of (mb_size : ℚ) : ℕ := 1048576 * (Int.floor |mb_size|).toNat

/-- Method `create_unique_link(bucketname, objectname, filename)`.
`parseExpires` models `datetime.strptime(s, "%a, %d %b %Y %X %Z").timestamp()`
(`none` = `ValueError`); `response` is the transport's answer to the one
`POST` the method can issue. Returns the issued requests, the final
engine state and the outcome. -/
def create_unique_link (parseExpires : String → Option Int)
    (md5hex : List Nat → String) (fsys : FileSystem) (st : ResumableState)
    (bucketname objectname filename : Option String) (response : Response) :
    List Request × ResumableState × Except Err Unit :=
  if ¬ _is_valid_arg bucketname then
    ([], st, .error (.storageExc "Bucketname cannot be empty"))
  else if ¬ (_is_valid_arg objectname || _is_valid_arg filename) then
    ([], st, .error (.storageExc "Must specify objectname or filename"))
  else
    let file : Option String := if pyTruthy filename then filename else objectname
    if ¬ _is_valid_arg file then
      ([], st, .error (.storageExc "Must specify objectname or filename"))
    else
      let fileStr := file.getD ""
      let info0 : FileInfo :=
        { name := fileStr, link := "", length := "",
          headers := [("Tus-Resumable", "1.0.0")],
          expiration_time := none, fingerprint := none, mtime := none }
      let modeBranch : Except Err (String × FileInfo) :=
        if ¬ pyTruthy filename then
          .ok ("Upload-Defer-Length",
            { info0 with headers := dset info0.headers "Upload-Defer-Length" "1" })
        else
          match dget fsys (filename.getD "") with
          | none => .error (.osError (filename.getD ""))
          | some fd =>
            let size := pyStrOfNat fd.content.length
            match pyParseNat size with
            | none => .error (.valueError size)
            | some n =>
              if n = 0 then
                .error (.storageExc ("Cannot create a link for an empty file: " ++ fileStr))
              else
                .ok ("Upload-Length",
                  { info0 with
                      headers := dset info0.headers "Upload-Length" size,
                      length := size })
      match modeBranch with
      | .error e => ([], st, .error e)
      | .ok (upload_mode, info1) =>
        let obj_name := ospathSplitTail fileStr
        let metadata := [("bucketName", bucketname.getD ""), ("objectName", obj_name)]
        let info2 :=
          { info1 with headers := dset info1.headers "Upload-Metadata" (_encode metadata) }
        let req := Request.post st.url info2.headers
        if response.status_code ≠ 201 then
          ([req], st, .error (.storageExc response.content))
        else
          match dget response.headers "upload-expires" with
          | none => ([req], st, .error (.keyError "upload-expires"))
          | some expStr =>
            match parseExpires expStr with
            | none => ([req], st, .error (.valueError expStr))
            | some t =>
              let info3 := { info2 with expiration_time := some t }
              match dget response.headers "location" with
              | none => ([req], st, .error (.keyError "location"))
              | some loc =>
                let info4 :=
                  { info3 with
                    link := loc
                    headers := ddel info3.headers upload_mode }
                match FileStore.mark_file md5hex fsys st.filestore info4 with
                | (fst1, .error e) => ([req], { st with filestore := fst1 }, .error e)
                | (fst1, .ok _) => ([req], { st with filestore := fst1 }, .ok ())

/-- Method `resumable_offset(link, headers)`: `HEAD` the link and read the
`upload-offset` response header (`KeyError` when the server omits it). -/
def resumable_offset (response : Response) : Except Err String :=
  match dget response.headers "upload-offset" with
  | none => .error (.keyError "upload-offset")
  | some off => .ok off

/-- Method `terminate(file)`: look the session up, `DELETE` its link, require
status 204, then drop the session from the store. -/
def terminate (st : ResumableState) (file : String) (response : Response) :
    ResumableState × Except Err Unit :=
  match FileStore.get_file_info st.filestore file with
  | (fst1, .error e) => ({ st with filestore := fst1 }, .error e)
  | (fst1, .ok _info) =>
    if response.status_code ≠ 204 then
      ({ st with filestore := fst1 }, .error (.storageExc response.content))
    else
      match FileStore.remove_file fst1 file with
      | (fst2, .error e) => ({ st with filestore := fst2 }, .error e)
      | (fst2, .ok _) => ({ st with filestore := fst2 }, .ok ())

/-- One pass of `upload`'s `while True:` loop per script entry. Each entry
is the pair (response to the `HEAD` offset query, response to the chunk
`PATCH`). An exhausted script stops the loop with the modelling-only
`transportExhausted` marker. -/
def uploadLoop (now : Int) (fsys : FileSystem) (fs : FileStore)
    (target_file filenameStr : String) (chunk_size : Nat) :
    List (Response × Response) → FileStore × Except Err Unit
  | [] => (fs, .error .transportExhausted)
  | (headResp, patchResp) :: rest =>
    match FileStore.get_file_headers fs target_file with
    | (fs1, .error e) => (fs1, .error e)
    | (fs1, .ok _headers) =>
      match resumable_offset headResp with
      | .error e => (fs1, .error e)
      | .ok offset =>
        match pyParseNat offset with
        | none => (fs1, .error (.valueError offset))
        | some offN =>
          match dget fsys filenameStr with
          | none => (fs1, .error (.osError filenameStr))
          | some fd =>
            match FileStore.update_file_headers now fs1 target_file "Upload-Offset" offset with
            | (fs2, .error e) => (fs2, .error e)
            | (fs2, .ok _) =>
              let _chunk := (fd.content.drop offN).take chunk_size
              match FileStore.get_file_headers fs2 target_file with
              | (fs3, .error e) => (fs3, .error e)
              | (fs3, .ok _hdrs) =>
                if ¬ (patchResp.status_code = 201 ∨ patchResp.status_code = 204) then
                  (fs3, .error (.storageExc patchResp.content))
                else if dhas patchResp.headers "tus-complete" then
                  match FileStore.remove_file fs3 target_file with
                  | (fs4, .error e) => (fs4, .error e)
                  | (fs4, .ok _) => (fs4, .ok ())
                else
                  uploadLoop now fsys fs3 target_file filenameStr chunk_size rest

/-- Method `upload(filename, upload_defer, link, objectname, mb_size)`.
`deferResponse` is the transport's answer to the length-declaration
`PATCH` issued in deferred mode (the code never looks at it); `iters`
scripts the transfer loop. -/
def upload (now : Int) (fsys : FileSystem) (st : ResumableState)
    (filename : Option String) (upload_defer : Bool)
    (link objectname : Option String) (mb_size : ℚ)
    (deferResponse : Response) (iters : List (Response × Response)) :
    ResumableState × Except Err Unit :=
  if upload_defer ∧ ¬ (_is_valid_arg link ∧ _is_valid_arg objectname) then
    (st, .error (.storageExc "Upload-Defer mode requires a link and objectname"))
  else if ¬ _is_valid_arg filename then
    (st, .error (.storageExc "Must specify a filename"))
  else
    let target_file := (if upload_defer then objectname else filename).getD ""
    let filenameStr := filename.getD ""
    let chunk_size := chunk_size_of mb_size
    match FileStore.update_file_headers now st.filestore target_file
        "Content-Type" "application/offset+octet-stream" with
    | (fs1, .error e) => ({ st with filestore := fs1 }, .error e)
    | (fs1, .ok _) =>
      match (if upload_defer then .ok (link.getD "")
             else FileStore.get_link fs1 target_file : Except Err String) with
      | .error e => ({ st with filestore := fs1 }, .error e)
      | .ok _storage_link =>
        if upload_defer then
          match dget fsys filenameStr with
          | none => ({ st with filestore := fs1 }, .error (.osError filenameStr))
          | some fd =>
            let size := pyStrOfNat fd.content.length
            match pyParseNat size with
            | none => ({ st with filestore := fs1 }, .error (.valueError size))
            | some n =>
              if n = 0 then
                ({ st with filestore := fs1 },
                  .error (.storageExc ("Cannot upload an empty file: " ++ filenameStr)))
              else
                match FileStore.update_file_headers now fs1 target_file
                    "Upload-Length" size with
                | (fs2, .error e) => ({ st with filestore := fs2 }, .error e)
                | (fs2, .ok _) =>
                  match FileStore.update_file_headers now fs2 target_file
                      "Upload-Offset" "0" with
                  | (fs3, .error e) => ({ st with filestore := fs3 }, .error e)
                  | (fs3, .ok _) =>
                    match FileStore.get_file_headers fs3 target_file with
                    | (fs4, .error e) => ({ st with filestore := fs4 }, .error e)
                    | (fs4, .ok _hdrs) =>
                      -- the length-declaration PATCH: `deferResponse` unused
                      match FileStore.delete_file_headers fs4 target_file
                          "Upload-Length" with
                      | (fs5, .error e) => ({ st with filestore := fs5 }, .error e)
                      | (fs5, .ok _) =>
                        let r := uploadLoop now fsys fs5 target_file filenameStr
                          chunk_size iters
                        ({ st with filestore := r.1 }, r.2)
        else
          let r := uploadLoop now fsys fs1 target_file filenameStr chunk_size iters
          ({ st with filestore := r.1 }, r.2)

/-! ## Claim C7: the Metadata Codec -/

/-- C7: for every metadata mapping, `_encode` emits, for each key in
insertion order, `"<key> <base64(utf8(value))>"` and joins the entries
with `","` — i.e. it coincides with the spec's encoding rule, stated as
its own recursion in `encodeSpec`. Determinism is definitional: `_encode`
is a pure Lean function of its argument, so re-encoding an identical
mapping yields the identical string. -/
theorem encode_refines_spec (metadata : List (String × String)) :
    _encode metadata = encodeSpec metadata := by
  match metadata with
  | [] => rfl
  | [(k, v)] => rfl
  | (k, v) :: kv :: rest =>
    have ih := encode_refines_spec (kv :: rest)
    obtain ⟨k', v'⟩ := kv
    simp only [_encode, List.map_cons, pyJoin, encodeSpec] at ih ⊢
    rw [ih]

/-! ## Claim C1: the chunk size computation -/

/-- C1 counterexample: at `chunkMegabytes = 0` the chunk size used by the
transfer loop is `1048576 * int(abs(0)) = 0` bytes — not the claimed
`1,048,576 * max(1, |0|) = 1,048,576`, and not at least 1,048,576. -/
theorem chunk_size_zero_cex :
    chunk_size_of 0 = 0 ∧ ¬ 1048576 ≤ chunk_size_of 0 := by
  constructor <;> norm_num [chunk_size_of]

/-- C1 (amended): the chunk size used by the transfer loop equals
`1,048,576 * trunc(|chunkMegabytes|)` bytes (truncation, not
`max(1, ·)`): it is at least 1,048,576 whenever `|chunkMegabytes| ≥ 1`,
but it is 0 — not 1,048,576 — for every `chunkMegabytes` with
`|chunkMegabytes| < 1`, including 0 and fractional values below 1. -/
theorem chunk_size_floor (mb_size : ℚ) :
    chunk_size_of mb_size = 1048576 * (Int.floor |mb_size|).toNat ∧
    (1 ≤ |mb_size| → 1048576 ≤ chunk_size_of mb_size) ∧
    (|mb_size| < 1 → chunk_size_of mb_size = 0) := by
  refine ⟨rfl, ?_, ?_⟩
  · intro h
    have h1 : (1 : ℤ) ≤ Int.floor |mb_size| := by
      rw [Int.le_floor]
      exact_mod_cast h
    have h2 : 1 ≤ (Int.floor |mb_size|).toNat := by omega
    calc 1048576 = 1048576 * 1 := by ring
    _ ≤ 1048576 * (Int.floor |mb_size|).toNat := Nat.mul_le_mul_left _ h2
  · intro h
    have h0 : (0 : ℤ) ≤ Int.floor |mb_size| := Int.floor_nonneg.mpr (abs_nonneg _)
    have h1 : Int.floor |mb_size| < 1 := by
      rw [Int.floor_lt]
      exact_mod_cast h
    have h2 : Int.floor |mb_size| = 0 := by omega
    simp [chunk_size_of, h2]

/-- Witness for C1 (amended) at `chunkMegabytes = 2` and `= 1/2`. -/
theorem chunk_size_floor_witness :
    1048576 ≤ chunk_size_of 2 ∧ chunk_size_of (1/2) = 0 :=
  ⟨(chunk_size_floor 2).2.1 (by norm_num),
   (chunk_size_floor (1/2)).2.2 (by rw [abs_lt]; constructor <;> norm_num)⟩

/-! ## Claim C8: `reload_storage` -/

/-- A session record used by the concrete counterexample stores. -/
def cexInfo : FileInfo :=
  { name := "a.bin", link := "L", length := "3",
    headers := [("Tus-Resumable", "1.0.0")],
    expiration_time := some 100, fingerprint := none, mtime := none }

/-- C8 counterexample: with the journal file missing (deleted externally),
`reload_storage`'s `os.stat` raises, so reload does fail — the claim's
"for every state of the file system, reload() never fails" is false. -/
theorem reload_missing_cex :
    (FileStore.reload_storage ⟨[("a.bin", cexInfo)], .missing⟩).2
      = .error (.osError "journal") := rfl

/-- C8 (amended): when the journal file exists, `reload_storage` never
fails: an empty journal yields the empty in-memory mapping and a journal
with content yields that mapping; but when the journal file is missing,
`reload_storage` fails with the `os.stat` error (it does not yield an
empty mapping). -/
theorem reload_storage_spec (fs : FileStore) :
    (fs.journal = .empty →
      fs.reload_storage = ({ fs with storage := [] }, .ok ())) ∧
    (∀ m, fs.journal = .content m →
      fs.reload_storage = ({ fs with storage := m }, .ok ())) ∧
    (fs.journal = .missing →
      fs.reload_storage = ({ fs with storage := [] }, .error (.osError "journal"))) := by
  refine ⟨?_, ?_, ?_⟩
  · intro h; simp [FileStore.reload_storage, h]
  · intro m h; simp [FileStore.reload_storage, h]
  · intro h; simp [FileStore.reload_storage, h]

/-- Witness for C8 (amended) on a concrete store with an empty journal. -/
theorem reload_storage_spec_witness :
    FileStore.reload_storage ⟨[("a.bin", cexInfo)], .empty⟩
      = (⟨[], .empty⟩, .ok ()) :=
  (reload_storage_spec ⟨[("a.bin", cexInfo)], .empty⟩).1 rfl

/-! ## Claim C3: `update_file_headers` and expiry -/

/-- The concrete store whose single session expires at time 100. -/
def storeAt100 : FileStore :=
  ⟨[("a.bin", cexInfo)], .content [("a.bin", cexInfo)]⟩

/-- C3 counterexample: at `now = expirationTime = 100` the claim demands
an Expired failure, but the code's strict comparison
(`expiration_time < now`) lets the header update succeed. -/
theorem update_header_boundary_cex :
    cexInfo.expiration_time = some 100 ∧
    (FileStore.update_file_headers 100 storeAt100 "a.bin" "k" "v").2
      = .ok () := ⟨rfl, rfl⟩

/-- C3 (amended): for every stored session, `update_file_headers` fails
with Expired exactly when `now > expirationTime` (strictly — at
`now = expirationTime` it still succeeds), and in the expired case it
also removes the session, so a subsequent `get_file_info` (getSession)
fails with a lookup error; otherwise it sets the header and persists. -/
theorem update_header_expiry (now t : Int) (m : List (String × FileInfo))
    (fs : FileStore) (name key value : String) (info : FileInfo)
    (hj : fs.journal = .content m) (hm : dget m name = some info)
    (hexp : info.expiration_time = some t) :
    (t < now →
      (FileStore.update_file_headers now fs name key value).2
        = .error (.storageExc "Upload link is expired") ∧
      (FileStore.get_file_info
          (FileStore.update_file_headers now fs name key value).1 name).2
        = .error (.keyError name)) ∧
    (¬ t < now →
      (FileStore.update_file_headers now fs name key value).2 = .ok () ∧
      dget (FileStore.update_file_headers now fs name key value).1.storage name
        = some { info with headers := dset info.headers key value } ∧
      (FileStore.update_file_headers now fs name key value).1.journal
        = .content (FileStore.update_file_headers now fs name key value).1.storage) := by
  constructor
  · intro hlt
    simp [FileStore.update_file_headers, FileStore.get_file_info,
      FileStore.reload_storage, hj, hm, hexp, if_pos hlt, FileStore.remove_file,
      FileStore.persist, dget_ddel_self]
  · intro hge
    simp [FileStore.update_file_headers, FileStore.get_file_info,
      FileStore.reload_storage, hj, hm, hexp, if_neg hge,
      FileStore.persist, dget_dset_self]

/-- Witness for C3 (amended): the expired branch at `now = 200 > 100`
on the concrete store, evicting the session. -/
theorem update_header_expiry_witness :
    (FileStore.update_file_headers 200 storeAt100 "a.bin" "k" "v").2
      = .error (.storageExc "Upload link is expired") ∧
    (FileStore.get_file_info
        (FileStore.update_file_headers 200 storeAt100 "a.bin" "k" "v").1 "a.bin").2
      = .error (.keyError "a.bin") :=
  (update_header_expiry 200 100 [("a.bin", cexInfo)] storeAt100 "a.bin" "k" "v"
    cexInfo rfl rfl rfl).1 (by norm_num)

/-! ## Run characterizations of `create_unique_link`

Helper lemmas computing a whole `create_unique_link` run in each upload
mode; the claim theorems about session creation are derived from them. -/

/-- The headers sent with the creation `POST` in deferred-length mode. -/
def deferRequestHeaders (b o : String) : Headers :=
  [("Tus-Resumable", "1.0.0"), ("Upload-Defer-Length", "1"),
   ("Upload-Metadata", _encode [("bucketName", b), ("objectName", ospathSplitTail o)])]

/-- The session record stored after a successful deferred-length creation. -/
def deferCreatedInfo (b o : String) (t : Int) (loc : String) : FileInfo :=
  { name := o, link := loc, length := "",
    headers := [("Tus-Resumable", "1.0.0"),
      ("Upload-Metadata", _encode [("bucketName", b), ("objectName", ospathSplitTail o)])],
    expiration_time := some t, fingerprint := none, mtime := none }

/-- The headers sent with the creation `POST` in length-declared mode. -/
def lengthRequestHeaders (b fn : String) (fd : FileData) : Headers :=
  [("Tus-Resumable", "1.0.0"), ("Upload-Length", pyStrOfNat fd.content.length),
   ("Upload-Metadata", _encode [("bucketName", b), ("objectName", ospathSplitTail fn)])]

/-- The session record stored after a successful length-declared creation. -/
def lengthCreatedInfo (md5hex : List Nat → String) (b fn : String)
    (fd : FileData) (t : Int) (loc : String) : FileInfo :=
  { name := fn, link := loc, length := pyStrOfNat fd.content.length,
    headers := [("Tus-Resumable", "1.0.0"),
      ("Upload-Metadata", _encode [("bucketName", b), ("objectName", ospathSplitTail fn)])],
    expiration_time := some t,
    fingerprint := some (md5hex (fd.content.take (min 65536 fd.content.length))),
    mtime := some fd.mtime }

/-- The engine state after `mark_file` stored `info` under `key`. -/
def createdStore (st : ResumableState) (key : String) (info : FileInfo) :
    ResumableState :=
  { st with filestore :=
      FileStore.persist { st.filestore with storage := dset st.filestore.storage key info } }

theorem create_defer_success (parseExpires : String → Option Int)
    (md5hex : List Nat → String) (fsys : FileSystem) (st : ResumableState)
    (b o : String) (f : Option String) (resp : Response) (es loc : String) (t : Int)
    (hb : _is_valid_arg (some b) = true) (ho : _is_valid_arg (some o) = true)
    (hf : pyTruthy f = false)
    (h201 : resp.status_code = 201)
    (hes : dget resp.headers "upload-expires" = some es)
    (hpe : parseExpires es = some t)
    (hloc : dget resp.headers "location" = some loc) :
    create_unique_link parseExpires md5hex fsys st (some b) (some o) f resp
      = ([Request.post st.url (deferRequestHeaders b o)],
         createdStore st o (deferCreatedInfo b o t loc), .ok ()) := by
  simp only [create_unique_link, hb, ho, hf, h201, hes, hpe, hloc,
    FileStore.mark_file, deferRequestHeaders, deferCreatedInfo, createdStore,
    dset, dget, ddel, Bool.true_or, Bool.or_true, Bool.not_true, Bool.not_false,
    Option.getD_some]
  simp [FileStore.persist, ho, h201, hes, hpe, hloc, dset, dget, ddel]

theorem create_defer_failure (parseExpires : String → Option Int)
    (md5hex : List Nat → String) (fsys : FileSystem) (st : ResumableState)
    (b o : String) (f : Option String) (resp : Response)
    (hb : _is_valid_arg (some b) = true) (ho : _is_valid_arg (some o) = true)
    (hf : pyTruthy f = false)
    (h201 : resp.status_code ≠ 201) :
    create_unique_link parseExpires md5hex fsys st (some b) (some o) f resp
      = ([Request.post st.url (deferRequestHeaders b o)],
         st, .error (.storageExc resp.content)) := by
  simp only [create_unique_link, hb, ho, hf, h201, deferRequestHeaders,
    dset, dget, ddel, Bool.true_or, Bool.or_true, Bool.not_true, Bool.not_false,
    Option.getD_some]
  simp [ho, h201, dset, dget]

theorem create_length_success (parseExpires : String → Option Int)
    (md5hex : List Nat → String) (fsys : FileSystem) (st : ResumableState)
    (b fn : String) (o : Option String) (fd : FileData) (resp : Response)
    (es loc : String) (t : Int)
    (hb : _is_valid_arg (some b) = true)
    (hfnt : pyTruthy (some fn) = true) (hfnv : _is_valid_arg (some fn) = true)
    (hfd : dget fsys fn = some fd) (hlen : fd.content.length ≠ 0)
    (h201 : resp.status_code = 201)
    (hes : dget resp.headers "upload-expires" = some es)
    (hpe : parseExpires es = some t)
    (hloc : dget resp.headers "location" = some loc) :
    create_unique_link parseExpires md5hex fsys st (some b) o (some fn) resp
      = ([Request.post st.url (lengthRequestHeaders b fn fd)],
         createdStore st fn (lengthCreatedInfo md5hex b fn fd t loc), .ok ()) := by
  simp only [create_unique_link, hb, hfnt, hfnv, hfd, hlen, h201, hes, hpe, hloc,
    pyParseNat_pyStrOfNat, FileStore.mark_file, FileStore.fingerprintOf,
    lengthRequestHeaders, lengthCreatedInfo, pyStrOfNat_ne_empty, createdStore,
    dset, dget, ddel, Bool.true_or, Bool.or_true, Bool.not_true, Bool.not_false,
    Option.getD_some]
  simp [FileStore.persist, pyParseNat_pyStrOfNat, hfd, pyStrOfNat_ne_empty,
    hlen, hfnv, h201, hes, hpe, hloc, dset, dget, ddel]

theorem create_length_failure (parseExpires : String → Option Int)
    (md5hex : List Nat → String) (fsys : FileSystem) (st : ResumableState)
    (b fn : String) (o : Option String) (fd : FileData) (resp : Response)
    (hb : _is_valid_arg (some b) = true)
    (hfnt : pyTruthy (some fn) = true) (hfnv : _is_valid_arg (some fn) = true)
    (hfd : dget fsys fn = some fd) (hlen : fd.content.length ≠ 0)
    (h201 : resp.status_code ≠ 201) :
    create_unique_link parseExpires md5hex fsys st (some b) o (some fn) resp
      = ([Request.post st.url (lengthRequestHeaders b fn fd)],
         st, .error (.storageExc resp.content)) := by
  simp only [create_unique_link, hb, hfnt, hfnv, hfd, hlen, h201,
    pyParseNat_pyStrOfNat, lengthRequestHeaders,
    dset, dget, ddel, Bool.true_or, Bool.or_true, Bool.not_true, Bool.not_false,
    Option.getD_some]
  simp [pyParseNat_pyStrOfNat, hfd, hlen, hfnv, h201, dset, dget]

/-! ## Claim C2: successful creation marks the session -/

/-- C2: for every `create_unique_link` call whose transport response has
status 201 with `location` and `upload-expires` headers (and a parseable
timestamp), the call succeeds and the Session Store afterwards contains
an entry keyed by the chosen identity (`filename` if truthy, else
`objectname`) whose `link` equals the response's `location` value and
whose headers contain neither `Upload-Length` nor `Upload-Defer-Length`
(the mode-declaration header sent at creation has been removed). -/
theorem create_marks_session (parseExpires : String → Option Int)
    (md5hex : List Nat → String) (fsys : FileSystem) (st : ResumableState)
    (objectname filename : Option String) (resp : Response)
    (es loc : String) (t : Int) (b : String)
    (hbv : _is_valid_arg (some b) = true)
    (hmode :
      (pyTruthy filename = false ∧
        ∃ o, objectname = some o ∧ _is_valid_arg (some o) = true)
      ∨ (∃ fn fd, filename = some fn ∧ pyTruthy (some fn) = true ∧
          _is_valid_arg (some fn) = true ∧ dget fsys fn = some fd ∧
          fd.content.length ≠ 0))
    (h201 : resp.status_code = 201)
    (hes : dget resp.headers "upload-expires" = some es)
    (hpe : parseExpires es = some t)
    (hloc : dget resp.headers "location" = some loc) :
    ∃ info : FileInfo,
      (create_unique_link parseExpires md5hex fsys st (some b) objectname
          filename resp).2.2 = .ok () ∧
      dget (create_unique_link parseExpires md5hex fsys st (some b) objectname
          filename resp).2.1.filestore.storage
        ((if pyTruthy filename then filename else objectname).getD "")
        = some info ∧
      info.link = loc ∧
      dget info.headers "Upload-Length" = none ∧
      dget info.headers "Upload-Defer-Length" = none := by
  rcases hmode with ⟨hf, o, ho, hov⟩ | ⟨fn, fd, hfn, hfnt, hfnv, hfd, hlen⟩
  · subst ho
    refine ⟨deferCreatedInfo b o t loc, ?_⟩
    rw [create_defer_success parseExpires md5hex fsys st b o filename resp es loc t
      hbv hov hf h201 hes hpe hloc]
    simp [hf, createdStore, FileStore.persist, dget_dset_self, deferCreatedInfo,
      dget]
  · subst hfn
    refine ⟨lengthCreatedInfo md5hex b fn fd t loc, ?_⟩
    rw [create_length_success parseExpires md5hex fsys st b fn objectname fd resp
      es loc t hbv hfnt hfnv hfd hlen h201 hes hpe hloc]
    simp [hfnt, createdStore, FileStore.persist, dget_dset_self,
      lengthCreatedInfo, dget]

/-- Witness for C2: a concrete deferred-mode creation against an empty
store succeeds and stores the session under `"obj"` with the response's
location and no mode-declaration header. -/
theorem create_marks_session_witness :
    ∃ info : FileInfo,
      (create_unique_link (fun _ => some 1000) (fun _ => "H") []
          ⟨"u", ⟨[], .empty⟩⟩ (some "bkt") (some "obj") none
          ⟨201, [("upload-expires", "E"), ("location", "http://x/s1")], ""⟩).2.2
        = .ok () ∧
      dget (create_unique_link (fun _ => some 1000) (fun _ => "H") []
          ⟨"u", ⟨[], .empty⟩⟩ (some "bkt") (some "obj") none
          ⟨201, [("upload-expires", "E"), ("location", "http://x/s1")], ""⟩).2.1.filestore.storage
        ((if pyTruthy none then none else some "obj").getD "")
        = some info ∧
      info.link = "http://x/s1" ∧
      dget info.headers "Upload-Length" = none ∧
      dget info.headers "Upload-Defer-Length" = none :=
  create_marks_session (fun _ => some 1000) (fun _ => "H") []
    ⟨"u", ⟨[], .empty⟩⟩ (some "obj") none
    ⟨201, [("upload-expires", "E"), ("location", "http://x/s1")], ""⟩
    "E" "http://x/s1" 1000 "bkt" (by decide)
    (Or.inl ⟨rfl, "obj", rfl, by decide⟩) rfl (by decide) rfl (by decide)

/-! ## Claim C10: basename in the metadata, full identity as store key -/

/-- C10: for every successful `create_unique_link` call, the
`Upload-Metadata` request header encodes as `objectName` only the
basename (`os.path.split(file)[1]`, the part after the last `/`) of the
chosen identity, while the Session Store key is the full identity
string. -/
theorem create_metadata_basename (parseExpires : String → Option Int)
    (md5hex : List Nat → String) (fsys : FileSystem) (st : ResumableState)
    (objectname filename : Option String) (resp : Response)
    (es loc : String) (t : Int) (b : String)
    (hbv : _is_valid_arg (some b) = true)
    (hmode :
      (pyTruthy filename = false ∧
        ∃ o, objectname = some o ∧ _is_valid_arg (some o) = true)
      ∨ (∃ fn fd, filename = some fn ∧ pyTruthy (some fn) = true ∧
          _is_valid_arg (some fn) = true ∧ dget fsys fn = some fd ∧
          fd.content.length ≠ 0))
    (h201 : resp.status_code = 201)
    (hes : dget resp.headers "upload-expires" = some es)
    (hpe : parseExpires es = some t)
    (hloc : dget resp.headers "location" = some loc) :
    ∃ hdrs : Headers,
      (create_unique_link parseExpires md5hex fsys st (some b) objectname
          filename resp).1 = [Request.post st.url hdrs] ∧
      dget hdrs "Upload-Metadata"
        = some (_encode [("bucketName", b),
            ("objectName", ospathSplitTail
              ((if pyTruthy filename then filename else objectname).getD ""))]) ∧
      (dget (create_unique_link parseExpires md5hex fsys st (some b) objectname
          filename resp).2.1.filestore.storage
        ((if pyTruthy filename then filename else objectname).getD "")).isSome
        = true := by
  rcases hmode with ⟨hf, o, ho, hov⟩ | ⟨fn, fd, hfn, hfnt, hfnv, hfd, hlen⟩
  · subst ho
    refine ⟨deferRequestHeaders b o, ?_⟩
    rw [create_defer_success parseExpires md5hex fsys st b o filename resp es loc t
      hbv hov hf h201 hes hpe hloc]
    simp [hf, createdStore, FileStore.persist, dget_dset_self,
      deferRequestHeaders, dget]
  · subst hfn
    refine ⟨lengthRequestHeaders b fn fd, ?_⟩
    rw [create_length_success parseExpires md5hex fsys st b fn objectname fd resp
      es loc t hbv hfnt hfnv hfd hlen h201 hes hpe hloc]
    simp [hfnt, createdStore, FileStore.persist, dget_dset_self,
      lengthRequestHeaders, dget]

/-- Witness for C10: creating with `objectname = "a/b/c.txt"` (deferred
mode) sends metadata whose `objectName` is the basename `"c.txt"`, while
the store key is the full `"a/b/c.txt"`. -/
theorem create_metadata_basename_witness :
    ∃ hdrs : Headers,
      (create_unique_link (fun _ => some 1000) (fun _ => "H") []
          ⟨"u", ⟨[], .empty⟩⟩ (some "bkt") (some "a/b/c.txt") none
          ⟨201, [("upload-expires", "E"), ("location", "L")], ""⟩).1
        = [Request.post "u" hdrs] ∧
      dget hdrs "Upload-Metadata"
        = some (_encode [("bucketName", "bkt"),
            ("objectName", ospathSplitTail
              ((if pyTruthy none then none else some "a/b/c.txt").getD ""))]) ∧
      (dget (create_unique_link (fun _ => some 1000) (fun _ => "H") []
          ⟨"u", ⟨[], .empty⟩⟩ (some "bkt") (some "a/b/c.txt") none
          ⟨201, [("upload-expires", "E"), ("location", "L")], ""⟩).2.1.filestore.storage
        ((if pyTruthy none then none else some "a/b/c.txt").getD "")).isSome
        = true :=
  create_metadata_basename (fun _ => some 1000) (fun _ => "H") []
    ⟨"u", ⟨[], .empty⟩⟩ (some "a/b/c.txt") none
    ⟨201, [("upload-expires", "E"), ("location", "L")], ""⟩
    "E" "L" 1000 "bkt" (by decide)
    (Or.inl ⟨rfl, "a/b/c.txt", rfl, by decide⟩) rfl (by decide) rfl (by decide)

/-! ## Claim C6: validation happens before any transport request -/

/-- C6: `create_unique_link` fails with the InvalidArgument-style
`StorageException`, with an empty request trace (no transport call),
whenever (1) the bucket name is blank/absent, (2) neither objectname nor
filename is a valid identifier, or (3) in length-declared mode the local
file at `filename` has size zero. -/
theorem create_validates_before_transport (parseExpires : String → Option Int)
    (md5hex : List Nat → String) (fsys : FileSystem) (st : ResumableState)
    (b o f : Option String) (resp : Response) :
    (_is_valid_arg b = false →
      create_unique_link parseExpires md5hex fsys st b o f resp
        = ([], st, .error (.storageExc "Bucketname cannot be empty"))) ∧
    (_is_valid_arg b = true → _is_valid_arg o = false → _is_valid_arg f = false →
      create_unique_link parseExpires md5hex fsys st b o f resp
        = ([], st, .error (.storageExc "Must specify objectname or filename"))) ∧
    (∀ fn fd, _is_valid_arg b = true → f = some fn →
      pyTruthy (some fn) = true → _is_valid_arg (some fn) = true →
      dget fsys fn = some fd → fd.content.length = 0 →
      create_unique_link parseExpires md5hex fsys st b o f resp
        = ([], st,
           .error (.storageExc ("Cannot create a link for an empty file: " ++ fn)))) := by
  refine ⟨?_, ?_, ?_⟩
  · intro hb
    simp [create_unique_link, hb]
  · intro hb ho hf
    simp [create_unique_link, hb, ho, hf]
  · intro fn fd hb hf hfnt hfnv hfd hlen
    subst hf
    simp [create_unique_link, hb, hfnt, hfnv, hfd, hlen, pyParseNat_pyStrOfNat]

/-- Witness for C6: the three validation failures at concrete inputs —
absent bucket, no identity, and a zero-byte local file. -/
theorem create_validates_witness :
    (create_unique_link (fun _ => none) (fun _ => "H") [] ⟨"u", ⟨[], .empty⟩⟩
        none (some "o") none ⟨201, [], ""⟩
      = ([], ⟨"u", ⟨[], .empty⟩⟩,
         .error (.storageExc "Bucketname cannot be empty"))) ∧
    (create_unique_link (fun _ => none) (fun _ => "H") [] ⟨"u", ⟨[], .empty⟩⟩
        (some "bkt") none none ⟨201, [], ""⟩
      = ([], ⟨"u", ⟨[], .empty⟩⟩,
         .error (.storageExc "Must specify objectname or filename"))) ∧
    (create_unique_link (fun _ => none) (fun _ => "H") [("z.bin", ⟨[], 7⟩)]
        ⟨"u", ⟨[], .empty⟩⟩ (some "bkt") none (some "z.bin") ⟨201, [], ""⟩
      = ([], ⟨"u", ⟨[], .empty⟩⟩,
         .error (.storageExc ("Cannot create a link for an empty file: " ++ "z.bin")))) :=
  ⟨(create_validates_before_transport (fun _ => none) (fun _ => "H") []
      ⟨"u", ⟨[], .empty⟩⟩ none (some "o") none ⟨201, [], ""⟩).1 (by decide),
   (create_validates_before_transport (fun _ => none) (fun _ => "H") []
      ⟨"u", ⟨[], .empty⟩⟩ (some "bkt") none none ⟨201, [], ""⟩).2.1
      (by decide) (by decide) (by decide),
   (create_validates_before_transport (fun _ => none) (fun _ => "H")
      [("z.bin", ⟨[], 7⟩)] ⟨"u", ⟨[], .empty⟩⟩ (some "bkt") none (some "z.bin")
      ⟨201, [], ""⟩).2.2 "z.bin" ⟨[], 7⟩ (by decide) rfl (by decide) (by decide)
      rfl rfl⟩

/-! ## Run characterizations of the transfer loop -/

/-- Copy of `info` with one header set. -/
def withHeader (info : FileInfo) (k v : String) : FileInfo :=
  { info with headers := dset info.headers k v }

/-- Copy of `info` with one header removed. -/
def sansHeader (info : FileInfo) (k : String) : FileInfo :=
  { info with headers := ddel info.headers k }

/-- The store state `persist` leaves after writing mapping `m`. -/
def persistedStore (m : List (String × FileInfo)) : FileStore := ⟨m, .content m⟩

/-- Running `update_file_headers` on a freshly persisted store and a non-expired
session: sets the header and persists. -/
theorem update_notexpired (now t : Int) (s0 m : List (String × FileInfo))
    (name key value : String) (info : FileInfo)
    (hm : dget m name = some info) (hexp : info.expiration_time = some t)
    (hnow : ¬ t < now) :
    FileStore.update_file_headers now ⟨s0, .content m⟩ name key value
      = (persistedStore (dset m name (withHeader info key value)), .ok ()) := by
  simp only [FileStore.update_file_headers, FileStore.get_file_info,
    FileStore.reload_storage, hm, hexp, if_neg hnow, FileStore.persist,
    persistedStore, withHeader]

/-- Running `get_file_headers` on a freshly persisted store with the session
present. -/
theorem get_headers_content (s0 m : List (String × FileInfo)) (name : String)
    (info : FileInfo) (hm : dget m name = some info) :
    FileStore.get_file_headers ⟨s0, .content m⟩ name
      = (⟨m, .content m⟩, .ok info.headers) := by
  simp only [FileStore.get_file_headers, FileStore.get_file_info,
    FileStore.reload_storage, hm]

/-- Running `delete_file_headers` on a freshly persisted store when the header is
present: removes it and persists. -/
theorem delete_headers_present (s0 m : List (String × FileInfo))
    (name key : String) (info : FileInfo) (hm : dget m name = some info)
    (hhas : dhas info.headers key = true) :
    FileStore.delete_file_headers ⟨s0, .content m⟩ name key
      = (persistedStore (dset m name (sansHeader info key)), .ok ()) := by
  simp only [FileStore.delete_file_headers, FileStore.get_file_info,
    FileStore.reload_storage, hm, hhas, if_pos, FileStore.persist,
    persistedStore, sansHeader]

/-- One transfer-loop iteration whose chunk `PATCH` returns a status
outside {201, 204}: the loop aborts with the response body and the
session survives, with its `Upload-Offset` header set to the
server-reported offset. -/
theorem uploadLoop_iter_fail (now t : Int) (fsys : FileSystem)
    (s0 m : List (String × FileInfo)) (target fn offStr : String)
    (cs offN : Nat) (info : FileInfo) (fd : FileData)
    (headResp patchResp : Response) (rest : List (Response × Response))
    (hm : dget m target = some info)
    (hexp : info.expiration_time = some t) (hnow : ¬ t < now)
    (hoff : dget headResp.headers "upload-offset" = some offStr)
    (hparse : pyParseNat offStr = some offN)
    (hfd : dget fsys fn = some fd)
    (hbad : ¬ (patchResp.status_code = 201 ∨ patchResp.status_code = 204)) :
    uploadLoop now fsys ⟨s0, .content m⟩ target fn cs
        ((headResp, patchResp) :: rest)
      = (persistedStore (dset m target (withHeader info "Upload-Offset" offStr)),
         .error (.storageExc patchResp.content)) := by
  simp only [uploadLoop, FileStore.get_file_headers, FileStore.get_file_info,
    FileStore.reload_storage, hm, resumable_offset, hoff, hparse, hfd,
    FileStore.update_file_headers, hexp, if_neg hnow, FileStore.persist,
    persistedStore, withHeader, dget_dset_self, hbad]
  simp [hbad]

/-- One transfer-loop iteration with an accepted status and the
`tus-complete` marker: the loop ends successfully and the session is
removed from the store. -/
theorem uploadLoop_iter_complete (now t : Int) (fsys : FileSystem)
    (s0 m : List (String × FileInfo)) (target fn offStr : String)
    (cs offN : Nat) (info : FileInfo) (fd : FileData)
    (headResp patchResp : Response) (rest : List (Response × Response))
    (hm : dget m target = some info)
    (hexp : info.expiration_time = some t) (hnow : ¬ t < now)
    (hoff : dget headResp.headers "upload-offset" = some offStr)
    (hparse : pyParseNat offStr = some offN)
    (hfd : dget fsys fn = some fd)
    (hgood : patchResp.status_code = 201 ∨ patchResp.status_code = 204)
    (hdone : dhas patchResp.headers "tus-complete" = true) :
    uploadLoop now fsys ⟨s0, .content m⟩ target fn cs
        ((headResp, patchResp) :: rest)
      = (persistedStore
          (ddel (dset m target (withHeader info "Upload-Offset" offStr)) target),
         .ok ()) := by
  simp only [uploadLoop, FileStore.get_file_headers, FileStore.get_file_info,
    FileStore.reload_storage, hm, resumable_offset, hoff, hparse, hfd,
    FileStore.update_file_headers, hexp, if_neg hnow, FileStore.persist,
    persistedStore, withHeader, dget_dset_self, FileStore.remove_file]
  simp [hgood, hdone, FileStore.remove_file, dget_dset_self, FileStore.persist]

/-- One transfer-loop iteration with an accepted status but no
`tus-complete` marker: the loop keeps the session (offset updated) and
recurses on the remaining script. -/
theorem uploadLoop_iter_continue (now t : Int) (fsys : FileSystem)
    (s0 m : List (String × FileInfo)) (target fn offStr : String)
    (cs offN : Nat) (info : FileInfo) (fd : FileData)
    (headResp patchResp : Response) (rest : List (Response × Response))
    (hm : dget m target = some info)
    (hexp : info.expiration_time = some t) (hnow : ¬ t < now)
    (hoff : dget headResp.headers "upload-offset" = some offStr)
    (hparse : pyParseNat offStr = some offN)
    (hfd : dget fsys fn = some fd)
    (hgood : patchResp.status_code = 201 ∨ patchResp.status_code = 204)
    (hdone : dhas patchResp.headers "tus-complete" = false) :
    uploadLoop now fsys ⟨s0, .content m⟩ target fn cs
        ((headResp, patchResp) :: rest)
      = uploadLoop now fsys
          (persistedStore (dset m target (withHeader info "Upload-Offset" offStr)))
          target fn cs rest := by
  simp only [uploadLoop, FileStore.get_file_headers, FileStore.get_file_info,
    FileStore.reload_storage, hm, resumable_offset, hoff, hparse, hfd,
    FileStore.update_file_headers, hexp, if_neg hnow, FileStore.persist,
    persistedStore, withHeader, dget_dset_self]
  simp [hgood, hdone]

/-- A non-expired session record used by concrete runs below. -/
def cexInfo1000 : FileInfo :=
  { name := "a.bin", link := "http://x/s1", length := "3",
    headers := [("Tus-Resumable", "1.0.0")],
    expiration_time := some 1000, fingerprint := none, mtime := none }

/-! ## Claim C4: the status-code contract -/

/-- C4: for every transport response, (1) session creation succeeds
exactly when the status is 201, (2) a chunk-transfer iteration fails with
the protocol-level `StorageException` carrying the raw response body
exactly when the status is outside {201, 204}, and (3) termination
succeeds exactly when the status is 204; in the creation and termination
cases any other status yields the `StorageException` carrying the raw
response body. (Each part is stated under the reachability hypotheses of
the respective operation: arguments that pass validation, a well-formed
creation response body, a stored non-expired session.) -/
theorem status_code_contract :
    (∀ (parseExpires : String → Option Int) (md5hex : List Nat → String)
        (fsys : FileSystem) (st : ResumableState) (b : String)
        (objectname filename : Option String) (resp : Response)
        (es loc : String) (t : Int),
      _is_valid_arg (some b) = true →
      ((pyTruthy filename = false ∧
          ∃ o, objectname = some o ∧ _is_valid_arg (some o) = true)
        ∨ (∃ fn fd, filename = some fn ∧ pyTruthy (some fn) = true ∧
            _is_valid_arg (some fn) = true ∧ dget fsys fn = some fd ∧
            fd.content.length ≠ 0)) →
      dget resp.headers "upload-expires" = some es → parseExpires es = some t →
      dget resp.headers "location" = some loc →
      (((create_unique_link parseExpires md5hex fsys st (some b) objectname
            filename resp).2.2 = .ok ()) ↔ resp.status_code = 201) ∧
      (resp.status_code ≠ 201 →
        (create_unique_link parseExpires md5hex fsys st (some b) objectname
            filename resp).2.2 = .error (.storageExc resp.content))) ∧
    (∀ (now t : Int) (fsys : FileSystem) (s0 m : List (String × FileInfo))
        (target fn offStr : String) (cs offN : Nat) (info : FileInfo)
        (fd : FileData) (headResp patchResp : Response),
      dget m target = some info → info.expiration_time = some t → ¬ t < now →
      dget headResp.headers "upload-offset" = some offStr →
      pyParseNat offStr = some offN → dget fsys fn = some fd →
      (((uploadLoop now fsys ⟨s0, .content m⟩ target fn cs
            [(headResp, patchResp)]).2
          = .error (.storageExc patchResp.content))
        ↔ ¬ (patchResp.status_code = 201 ∨ patchResp.status_code = 204))) ∧
    (∀ (st : ResumableState) (file : String) (m : List (String × FileInfo))
        (info : FileInfo) (resp : Response),
      st.filestore.journal = .content m → dget m file = some info →
      (((terminate st file resp).2 = .ok ()) ↔ resp.status_code = 204) ∧
      (resp.status_code ≠ 204 →
        (terminate st file resp).2 = .error (.storageExc resp.content))) := by
  refine ⟨?_, ?_, ?_⟩
  · intro parseExpires md5hex fsys st b objectname filename resp es loc t
      hbv hmode hes hpe hloc
    by_cases h201 : resp.status_code = 201
    · constructor
      · simp only [h201, iff_true]
        rcases hmode with ⟨hf, o, ho, hov⟩ | ⟨fn, fd, hfn, hfnt, hfnv, hfd, hlen⟩
        · subst ho
          rw [create_defer_success parseExpires md5hex fsys st b o filename resp
            es loc t hbv hov hf h201 hes hpe hloc]
        · subst hfn
          rw [create_length_success parseExpires md5hex fsys st b fn objectname
            fd resp es loc t hbv hfnt hfnv hfd hlen h201 hes hpe hloc]
      · intro h; exact absurd h201 h
    · constructor
      · rcases hmode with ⟨hf, o, ho, hov⟩ | ⟨fn, fd, hfn, hfnt, hfnv, hfd, hlen⟩
        · subst ho
          rw [create_defer_failure parseExpires md5hex fsys st b o filename resp
            hbv hov hf h201]
          simp [h201]
        · subst hfn
          rw [create_length_failure parseExpires md5hex fsys st b fn objectname
            fd resp hbv hfnt hfnv hfd hlen h201]
          simp [h201]
      · intro _
        rcases hmode with ⟨hf, o, ho, hov⟩ | ⟨fn, fd, hfn, hfnt, hfnv, hfd, hlen⟩
        · subst ho
          rw [create_defer_failure parseExpires md5hex fsys st b o filename resp
            hbv hov hf h201]
        · subst hfn
          rw [create_length_failure parseExpires md5hex fsys st b fn objectname
            fd resp hbv hfnt hfnv hfd hlen h201]
  · intro now t fsys s0 m target fn offStr cs offN info fd headResp patchResp
      hm hexp hnow hoff hparse hfd
    by_cases hbad : patchResp.status_code = 201 ∨ patchResp.status_code = 204
    · simp only [hbad, not_true, iff_false]
      by_cases hdone : dhas patchResp.headers "tus-complete" = true
      · rw [uploadLoop_iter_complete now t fsys s0 m target fn offStr cs offN
          info fd headResp patchResp [] hm hexp hnow hoff hparse hfd hbad hdone]
        simp
      · rw [uploadLoop_iter_continue now t fsys s0 m target fn offStr cs offN
          info fd headResp patchResp [] hm hexp hnow hoff hparse hfd hbad
          (by simpa using hdone)]
        simp [uploadLoop]
    · rw [uploadLoop_iter_fail now t fsys s0 m target fn offStr cs offN
        info fd headResp patchResp [] hm hexp hnow hoff hparse hfd hbad]
      simp [hbad]
  · intro st file m info resp hj hm
    constructor
    · by_cases h204 : resp.status_code = 204
      · simp only [h204, iff_true, terminate, FileStore.get_file_info,
          FileStore.reload_storage, hj, hm, FileStore.remove_file,
          FileStore.persist, dget_dset_self]
        simp [hm]
      · simp only [terminate, FileStore.get_file_info, FileStore.reload_storage,
          hj, hm, if_pos h204]
        simp [h204]
    · intro h204
      simp only [terminate, FileStore.get_file_info, FileStore.reload_storage,
        hj, hm]
      simp [h204]

/-- Witness for C4: the three contract parts at concrete inputs — a 201
creation succeeding, a 500 chunk transfer failing with the body, and a
204 termination succeeding. -/
theorem status_code_contract_witness :
    (((create_unique_link (fun _ => some 1000) (fun _ => "H") []
          ⟨"u", ⟨[], .empty⟩⟩ (some "bkt") (some "obj") none
          ⟨201, [("upload-expires", "E"), ("location", "L")], ""⟩).2.2
        = .ok ()) ↔
      (⟨201, [("upload-expires", "E"), ("location", "L")], ""⟩ : Response).status_code
        = 201) ∧
    (((uploadLoop 500 [("a.bin", ⟨[1, 2, 3], 42⟩)]
          ⟨[("a.bin", cexInfo1000)], .content [("a.bin", cexInfo1000)]⟩
          "a.bin" "a.bin" 1048576
          [(⟨200, [("upload-offset", "0")], ""⟩, ⟨500, [], "boom"⟩)]).2
        = .error (.storageExc "boom"))
      ↔ ¬ ((⟨500, [], "boom"⟩ : Response).status_code = 201 ∨
           (⟨500, [], "boom"⟩ : Response).status_code = 204)) ∧
    (((terminate ⟨"u", ⟨[("a.bin", cexInfo1000)], .content [("a.bin", cexInfo1000)]⟩⟩
          "a.bin" ⟨204, [], ""⟩).2 = .ok ()) ↔
      (⟨204, [], ""⟩ : Response).status_code = 204) :=
  ⟨(status_code_contract.1 (fun _ => some 1000) (fun _ => "H") []
      ⟨"u", ⟨[], .empty⟩⟩ "bkt" (some "obj") none
      ⟨201, [("upload-expires", "E"), ("location", "L")], ""⟩ "E" "L" 1000
      (by decide) (Or.inl ⟨rfl, "obj", rfl, by decide⟩) (by decide) rfl
      (by decide)).1,
   status_code_contract.2.1 500 1000 [("a.bin", ⟨[1, 2, 3], 42⟩)]
      [("a.bin", cexInfo1000)] [("a.bin", cexInfo1000)] "a.bin" "a.bin" "0"
      1048576 0 cexInfo1000 ⟨[1, 2, 3], 42⟩ ⟨200, [("upload-offset", "0")], ""⟩
      ⟨500, [], "boom"⟩ rfl rfl (by norm_num) rfl rfl rfl,
   (status_code_contract.2.2 ⟨"u", ⟨[("a.bin", cexInfo1000)],
        .content [("a.bin", cexInfo1000)]⟩⟩ "a.bin" [("a.bin", cexInfo1000)]
      cexInfo1000 ⟨204, [], ""⟩ rfl rfl).1⟩

/-! ## Claim C5: a failing chunk transfer leaves the session in place -/

/-- The session mapping after the failing first iteration of a
non-deferred upload: `Content-Type` set before the loop, `Upload-Offset`
set inside it. -/
def failMap (m : List (String × FileInfo)) (fn offStr : String)
    (info : FileInfo) : List (String × FileInfo) :=
  dset (dset m fn (withHeader info "Content-Type" "application/offset+octet-stream"))
    fn
    (withHeader (withHeader info "Content-Type" "application/offset+octet-stream")
      "Upload-Offset" offStr)

/-- A whole non-deferred `upload` run whose first chunk `PATCH` fails:
validation passes, the `Content-Type` header is set, the offset is
queried and recorded, and the loop aborts with the response body. -/
theorem upload_fail_run (now t : Int) (fsys : FileSystem) (st : ResumableState)
    (m : List (String × FileInfo)) (fn offStr : String) (offN : Nat)
    (info : FileInfo) (fd : FileData) (l o : Option String) (mb : ℚ)
    (dr headResp patchResp : Response) (rest : List (Response × Response))
    (hfn : _is_valid_arg (some fn) = true)
    (hj : st.filestore.journal = .content m)
    (hm : dget m fn = some info)
    (hexp : info.expiration_time = some t) (hnow : ¬ t < now)
    (hoff : dget headResp.headers "upload-offset" = some offStr)
    (hparse : pyParseNat offStr = some offN)
    (hfd : dget fsys fn = some fd)
    (hbad : ¬ (patchResp.status_code = 201 ∨ patchResp.status_code = 204)) :
    upload now fsys st (some fn) false l o mb dr ((headResp, patchResp) :: rest)
      = ({ st with filestore := persistedStore (failMap m fn offStr info) },
         .error (.storageExc patchResp.content)) := by
  have hloop := uploadLoop_iter_fail now t fsys
    (dset m fn (withHeader info "Content-Type" "application/offset+octet-stream"))
    (dset m fn (withHeader info "Content-Type" "application/offset+octet-stream"))
    fn fn offStr (chunk_size_of mb) offN
    (withHeader info "Content-Type" "application/offset+octet-stream") fd
    headResp patchResp rest (dget_dset_self _ _ _) hexp hnow hoff hparse hfd hbad
  simp only [upload, hfn, Bool.false_eq_true, false_and, if_false,
    FileStore.update_file_headers, FileStore.get_file_info,
    FileStore.reload_storage, hj, hm, hexp, if_neg hnow, FileStore.persist,
    FileStore.get_link, dget_dset_self, withHeader, Option.getD_some] at hloop ⊢
  simp only [persistedStore] at hloop
  simp [hloop, persistedStore, failMap, withHeader, hexp]

/-- The session store before the C5 counterexample run. -/
def preStoreC5 : ResumableState :=
  ⟨"u", ⟨[("a.bin", cexInfo1000)], .content [("a.bin", cexInfo1000)]⟩⟩

/-- The C5 counterexample run itself: the server reports offset 2 and the
chunk `PATCH` fails with status 500. -/
def runC5 : ResumableState × Except Err Unit :=
  upload 500 [("a.bin", ⟨[1, 2, 3], 42⟩)] preStoreC5 (some "a.bin") false
    none none 1 ⟨0, [], ""⟩ [(⟨200, [("upload-offset", "2")], ""⟩, ⟨500, [], "boom"⟩)]

/-- C5 counterexample: after the failing run, the session entry for
`"a.bin"` is still present — but it is NOT unchanged: upload has set its
`Content-Type` header and updated `Upload-Offset` to the server-reported
offset, so the stored entry differs from the pre-call entry. -/
theorem upload_fail_changed_cex :
    runC5.2 = .error (.storageExc "boom") ∧
    (dget runC5.1.filestore.storage "a.bin").isSome = true ∧
    dget runC5.1.filestore.storage "a.bin" ≠ some cexInfo1000 := by
  refine ⟨rfl, rfl, ?_⟩
  decide

/-- C5 (amended): for every chunk-transfer iteration of `upload` whose
transport response has a status outside {201, 204}, `upload` fails with
the protocol-level `StorageException` carrying the raw response body and
the session entry for the target key remains present in the Session
Store with its `link` unchanged (so a later `upload` call can resume
it) — but not byte-identical: its `Content-Type` header has been set to
the offset media type and its `Upload-Offset` header has been updated to
the server-reported offset. -/
theorem upload_chunk_failure_keeps_session (now t : Int) (fsys : FileSystem)
    (st : ResumableState) (m : List (String × FileInfo)) (fn offStr : String)
    (offN : Nat) (info : FileInfo) (fd : FileData) (l o : Option String)
    (mb : ℚ) (dr headResp patchResp : Response)
    (rest : List (Response × Response))
    (hfn : _is_valid_arg (some fn) = true)
    (hj : st.filestore.journal = .content m)
    (hm : dget m fn = some info)
    (hexp : info.expiration_time = some t) (hnow : ¬ t < now)
    (hoff : dget headResp.headers "upload-offset" = some offStr)
    (hparse : pyParseNat offStr = some offN)
    (hfd : dget fsys fn = some fd)
    (hbad : ¬ (patchResp.status_code = 201 ∨ patchResp.status_code = 204)) :
    (upload now fsys st (some fn) false l o mb dr
        ((headResp, patchResp) :: rest)).2
      = .error (.storageExc patchResp.content) ∧
    dget (upload now fsys st (some fn) false l o mb dr
        ((headResp, patchResp) :: rest)).1.filestore.storage fn
      = some (withHeader
          (withHeader info "Content-Type" "application/offset+octet-stream")
          "Upload-Offset" offStr) ∧
    (withHeader
        (withHeader info "Content-Type" "application/offset+octet-stream")
        "Upload-Offset" offStr).link = info.link := by
  rw [upload_fail_run now t fsys st m fn offStr offN info fd l o mb dr headResp
    patchResp rest hfn hj hm hexp hnow hoff hparse hfd hbad]
  refine ⟨rfl, ?_, rfl⟩
  simp [failMap, persistedStore, dget_dset_self]

/-- Witness for C5 (amended) on the concrete failing run. -/
theorem upload_chunk_failure_keeps_session_witness :
    runC5.2 = .error (.storageExc "boom") ∧
    dget runC5.1.filestore.storage "a.bin"
      = some (withHeader
          (withHeader cexInfo1000 "Content-Type" "application/offset+octet-stream")
          "Upload-Offset" "2") ∧
    (withHeader
        (withHeader cexInfo1000 "Content-Type" "application/offset+octet-stream")
        "Upload-Offset" "2").link = cexInfo1000.link :=
  upload_chunk_failure_keeps_session 500 1000 [("a.bin", ⟨[1, 2, 3], 42⟩)]
    preStoreC5 [("a.bin", cexInfo1000)] "a.bin" "2" 2 cexInfo1000
    ⟨[1, 2, 3], 42⟩ none none 1 ⟨0, [], ""⟩ ⟨200, [("upload-offset", "2")], ""⟩
    ⟨500, [], "boom"⟩ [] (by decide) rfl rfl rfl (by norm_num) rfl rfl rfl
    (by decide)

/-! ## Claim C9: the length-declaration response is never inspected -/

/-- The session record after the deferred-mode preamble of `upload`:
`Content-Type` set, `Upload-Length` set then removed again,
`Upload-Offset` set to `"0"`. -/
def deferPreInfo (info : FileInfo) (size : String) : FileInfo :=
  sansHeader
    (withHeader
      (withHeader
        (withHeader info "Content-Type" "application/offset+octet-stream")
        "Upload-Length" size)
      "Upload-Offset" "0")
    "Upload-Length"

/-- The store state at the top of the transfer loop after the
deferred-mode preamble of `upload`. -/
def deferPreStore (m : List (String × FileInfo)) (o : String)
    (info : FileInfo) (size : String) : FileStore :=
  let i1 := withHeader info "Content-Type" "application/offset+octet-stream"
  let i2 := withHeader i1 "Upload-Length" size
  let i3 := withHeader i2 "Upload-Offset" "0"
  let i4 := sansHeader i3 "Upload-Length"
  persistedStore (dset (dset (dset (dset m o i1) o i2) o i3) o i4)

/-- C9: in deferred mode `upload` never inspects the status of the
transport response to the length-declaration request: for every pair of
responses to that request (including error statuses) the run is
identical, and the code proceeds into the chunk-transfer loop on a store
whose target entry no longer carries the local `Upload-Length` header. -/
theorem upload_defer_ignores_declaration (now t : Int) (fsys : FileSystem)
    (st : ResumableState) (m : List (String × FileInfo)) (fn l o : String)
    (info : FileInfo) (fd : FileData) (mb : ℚ) (dr : Response)
    (iters : List (Response × Response))
    (hl : _is_valid_arg (some l) = true) (ho : _is_valid_arg (some o) = true)
    (hfn : _is_valid_arg (some fn) = true)
    (hj : st.filestore.journal = .content m) (hm : dget m o = some info)
    (hexp : info.expiration_time = some t) (hnow : ¬ t < now)
    (hfd : dget fsys fn = some fd) (hlen : fd.content.length ≠ 0) :
    (∀ r r' : Response,
      upload now fsys st (some fn) true (some l) (some o) mb r iters
        = upload now fsys st (some fn) true (some l) (some o) mb r' iters) ∧
    upload now fsys st (some fn) true (some l) (some o) mb dr iters
      = ({ st with filestore :=
            (uploadLoop now fsys
              (deferPreStore m o info (pyStrOfNat fd.content.length)) o fn
              (chunk_size_of mb) iters).1 },
         (uploadLoop now fsys
            (deferPreStore m o info (pyStrOfNat fd.content.length)) o fn
            (chunk_size_of mb) iters).2) ∧
    dget (deferPreStore m o info (pyStrOfNat fd.content.length)).storage o
      = some (deferPreInfo info (pyStrOfNat fd.content.length)) ∧
    dget (deferPreInfo info (pyStrOfNat fd.content.length)).headers
        "Upload-Length" = none := by
  obtain ⟨u, fs⟩ := st
  obtain ⟨s0, j⟩ := fs
  simp only [ResumableState.mk.injEq] at hj ⊢
  subst hj
  refine ⟨fun r r' => rfl, ?_, ?_, ?_⟩
  · have h1 := update_notexpired now t s0 m o "Content-Type"
      "application/offset+octet-stream" info hm hexp hnow
    have hexp1 : (withHeader info "Content-Type"
        "application/offset+octet-stream").expiration_time = some t := hexp
    have h2 := update_notexpired now t
      (dset m o (withHeader info "Content-Type" "application/offset+octet-stream"))
      (dset m o (withHeader info "Content-Type" "application/offset+octet-stream"))
      o "Upload-Length" (pyStrOfNat fd.content.length)
      (withHeader info "Content-Type" "application/offset+octet-stream")
      (dget_dset_self _ _ _) hexp1 hnow
    set i1 := withHeader info "Content-Type" "application/offset+octet-stream"
      with hi1
    set i2 := withHeader i1 "Upload-Length" (pyStrOfNat fd.content.length)
      with hi2
    have hexp2 : i2.expiration_time = some t := hexp
    have h3 := update_notexpired now t
      (dset (dset m o i1) o i2) (dset (dset m o i1) o i2)
      o "Upload-Offset" "0" i2 (dget_dset_self _ _ _) hexp2 hnow
    set i3 := withHeader i2 "Upload-Offset" "0" with hi3
    have h4 := get_headers_content
      (dset (dset (dset m o i1) o i2) o i3) (dset (dset (dset m o i1) o i2) o i3)
      o i3 (dget_dset_self _ _ _)
    have hhas : dhas i3.headers "Upload-Length" = true := by
      simp [hi3, hi2, withHeader, dhas, dget_dset_self,
        dget_dset_ne _ "Upload-Offset" "Upload-Length" _ (by decide)]
    have h5 := delete_headers_present
      (dset (dset (dset m o i1) o i2) o i3) (dset (dset (dset m o i1) o i2) o i3)
      o "Upload-Length" i3 (dget_dset_self _ _ _) hhas
    simp only [upload, hl, ho, hfn]
    simp only [true_and, and_true, not_true, if_neg, ite_true, ite_false,
      Option.getD_some, not_false_eq_true, and_self, not_true_eq_false,
      if_false, Option.getD]
    simp only [h1, persistedStore]
    simp only [hfd, pyParseNat_pyStrOfNat]
    simp only [hlen, ite_false, if_neg, reduceIte]
    simp only [h2, persistedStore]
    simp only [h3, persistedStore]
    simp only [h4]
    simp only [h5, persistedStore]
    simp [deferPreStore, deferPreInfo, persistedStore, hi1, hi2, hi3, hlen]
  · simp [deferPreStore, deferPreInfo, persistedStore, dget_dset_self]
  · simp [deferPreInfo, sansHeader, dget_ddel_self]

/-- Witness for C9: the concrete deferred run, with two different
length-declaration responses yielding the identical result, and the
`Upload-Length` header gone at loop entry. -/
theorem upload_defer_ignores_declaration_witness :
    (∀ r r' : Response,
      upload 500 [("a.bin", ⟨[1, 2, 3], 42⟩)]
          ⟨"u", ⟨[("obj", cexInfo1000)], .content [("obj", cexInfo1000)]⟩⟩
          (some "a.bin") true (some "http://x/s1") (some "obj") 1 r []
        = upload 500 [("a.bin", ⟨[1, 2, 3], 42⟩)]
            ⟨"u", ⟨[("obj", cexInfo1000)], .content [("obj", cexInfo1000)]⟩⟩
            (some "a.bin") true (some "http://x/s1") (some "obj") 1 r' []) ∧
    upload 500 [("a.bin", ⟨[1, 2, 3], 42⟩)]
        ⟨"u", ⟨[("obj", cexInfo1000)], .content [("obj", cexInfo1000)]⟩⟩
        (some "a.bin") true (some "http://x/s1") (some "obj") 1 ⟨500, [], "E"⟩ []
      = (⟨"u", (uploadLoop 500 [("a.bin", ⟨[1, 2, 3], 42⟩)]
            (deferPreStore [("obj", cexInfo1000)] "obj" cexInfo1000
              (pyStrOfNat ([1, 2, 3] : List Nat).length)) "obj" "a.bin"
            (chunk_size_of 1) []).1⟩,
         (uploadLoop 500 [("a.bin", ⟨[1, 2, 3], 42⟩)]
            (deferPreStore [("obj", cexInfo1000)] "obj" cexInfo1000
              (pyStrOfNat ([1, 2, 3] : List Nat).length)) "obj" "a.bin"
            (chunk_size_of 1) []).2) ∧
    dget (deferPreStore [("obj", cexInfo1000)] "obj" cexInfo1000
        (pyStrOfNat ([1, 2, 3] : List Nat).length)).storage "obj"
      = some (deferPreInfo cexInfo1000 (pyStrOfNat ([1, 2, 3] : List Nat).length)) ∧
    dget (deferPreInfo cexInfo1000
        (pyStrOfNat ([1, 2, 3] : List Nat).length)).headers "Upload-Length"
      = none :=
  upload_defer_ignores_declaration 500 1000 [("a.bin", ⟨[1, 2, 3], 42⟩)]
    ⟨"u", ⟨[("obj", cexInfo1000)], .content [("obj", cexInfo1000)]⟩⟩
    [("obj", cexInfo1000)] "a.bin" "http://x/s1" "obj" cexInfo1000
    ⟨[1, 2, 3], 42⟩ 1 ⟨500, [], "E"⟩ [] (by decide) (by decide) (by decide)
    rfl rfl rfl (by norm_num) rfl (by decide)

end Storage3
